import Mathlib

/-!
Verification of the payload-tracker request-to-query translation and
validation engine (`internal/endpoints/payloads.go`).

The three HTTP handlers (`Payloads`, `RequestIdPayloads`,
`PayloadArchiveLink`) are embedded as pure functions.  Effects are made
explicit:

* the HTTP response written through `writeResponse` is the first component
  of the result;
* the package-level mutable `verbosity` variable is threaded as a
  `PkgState` value;
* calls into the storage collaborator (`RetrievePayloads`,
  `RetrieveRequestIdPayloads`) and outbound requests to the storage broker
  are collected in a trace list, so «the collaborator is never invoked»
  becomes «the trace is empty»;
* external collaborators (the storage engine, the broker, the clock, the
  duration computation) are parameters of the handler.

Helpers that the handler file uses but that live elsewhere in the
repository (`initQuery`, `validTimestamps`, the sort whitelists,
`stringInSlice`, `getErrorBody`, `identityHasRole`, the `structs` response
shapes) are modelled from the spec; each such definition carries a doc
comment saying so.  JSON encoding/decoding of response bodies is an
external collaborator per the spec, so response bodies are kept structural
(`ResponseBody`) rather than serialized, and the broker body is modelled
as «decodes to this JSON value» / «is not valid JSON».
-/

namespace PayloadTracker

/-- JSON values, used to model the opaque pass-through body of the
archive-link proxy.  The spec treats JSON encoding/decoding as an external
collaborator, so bodies are kept at the level of decoded values. -/
inductive Json where
  | null
  | bool (b : Bool)
  | num (n : Int)
  | str (s : String)
  | arr (elems : List Json)
  | obj (fields : List (String × Json))
deriving Repr

/-- Opaque record returned by the storage collaborator: id, correlation
id, status, timestamps (the core never interprets the fields). -/
structure PayloadRecord where
  id : String
  requestId : String
  status : String
  date : String
deriving Repr, DecidableEq

/-- The query descriptor produced by the parameter normalizer
(`initQuery`).  Timestamps are carried already type-converted. -/
structure Query where
  page : Int
  pageSize : Int
  sortBy : String
  sortDir : String
  startDate : Option Nat
  endDate : Option Nat
deriving Repr, DecidableEq

/-- An inbound HTTP request, restricted to what the handlers consume:
the chi URL parameter `request_id`, the query string, the
`x-rh-identity` header, and the result of the identity-claim role check
(the check itself is an external capability per the spec, so it is
carried as an oracle bit). -/
structure Request where
  requestIdParam : String
  queryParams : List (String × String)
  xRhIdentity : String
  hasArchiveDownloadRole : Bool
deriving Repr, DecidableEq

/-- Go's query lookup `r.URL.Query().Get(key)`: first value bound to
`key`, or `""` when the key is absent (Go's `Get` cannot distinguish
absent from empty). -/
def queryGet (r : Request) (key : String) : String :=
  match r.queryParams.find? (fun p => p.1 == key) with
  | some p => p.2
  | none => ""

/-- Modelled from the spec: the membership helper used for the sort
whitelists (`stringInSlice` is declared outside the handler file). -/
def stringInSlice (a : String) (list : List String) : Bool :=
  list.any (fun b => b == a)

/-- Go's `strings.Join`: elements concatenated with the separator
between consecutive elements, in list order. -/
def stringsJoin : List String → String → String
  | [], _ => ""
  | [x], _ => x
  | x :: y :: xs, sep => x ++ sep ++ stringsJoin (y :: xs) sep

/-- Modelled from the spec: the sortable-field whitelist of the
all-payloads endpoint.  The spec names `created_at` (the endpoint
default) and `updated_at`; the concrete list lives outside the handler
file. -/
def validAllSortBy : List String := ["created_at", "updated_at"]

/-- Modelled from the spec: the sortable-field whitelist of the
by-correlation-id endpoint — a distinct but overlapping set with its own
endpoint-specific default (modelled as `date`); the concrete list lives
outside the handler file. -/
def validIDSortBy : List String := ["date", "created_at"]

/-- Modelled from the spec: the valid sort directions. -/
def validSortDir : List String := ["asc", "desc"]

/-- Decimal-digit accumulator over a character list (structural
recursion, so concrete parses reduce). -/
def digitsToNat (acc : Nat) : List Char → Option Nat
  | [] => some acc
  | c :: cs =>
    if 48 ≤ c.toNat ∧ c.toNat ≤ 57 then digitsToNat (acc * 10 + (c.toNat - 48)) cs
    else none

/-- Parse a nonempty all-decimal-digit string. -/
def parseNat (s : String) : Option Nat :=
  match s.data with
  | [] => none
  | c :: cs => digitsToNat 0 (c :: cs)

/-- Modelled from the spec: the single recognized timestamp format.  The
spec does not pin the concrete format, so timestamps are modelled as
decimal epoch seconds; what matters for the claims is that parsing is a
partial function and that parsed values are totally ordered. -/
def parseTimestamp (s : String) : Option Nat :=
  parseNat s

/-- Modelled from the spec: page and page size parse as positive
integers; zero, negative and non-numeric values are rejected. -/
def parsePositiveInt (s : String) : Option Int :=
  match parseNat s with
  | some n => if 1 ≤ n then some (n : Int) else none
  | none => none

/-- Modelled from the spec: fetch an optional positive-integer query
parameter, falling back to the documented default when absent. -/
def getPosIntParam (r : Request) (key : String) (deflt : Int) : Except String Int :=
  if queryGet r key = "" then .ok deflt
  else
    match parsePositiveInt (queryGet r key) with
    | some n => .ok n
    | none => .error ("malformed parameter: " ++ key)

/-- Modelled from the spec: fetch an optional timestamp query parameter;
an unrecognized date format is a malformed-parameter failure. -/
def getTimestampParam (r : Request) (key : String) : Except String (Option Nat) :=
  if queryGet r key = "" then .ok none
  else
    match parseTimestamp (queryGet r key) with
    | some t => .ok (some t)
    | none => .error ("malformed parameter: " ++ key)

/-- Modelled from the spec: the Parameter Normalizer `initQuery`.  It
produces a fully populated `Query` (defaults: page 1, page size 10, sort
direction `desc`, and the by-correlation-id endpoint's own sort-by
default `date`) or fails with a malformed-parameter message when a value
cannot be converted to its target type. -/
def initQuery (r : Request) : Except String Query := do
  let page ← getPosIntParam r "page" 1
  let pageSize ← getPosIntParam r "page_size" 10
  let startDate ← getTimestampParam r "start_date"
  let endDate ← getTimestampParam r "end_date"
  let sortBy := if queryGet r "sort_by" = "" then "date" else queryGet r "sort_by"
  let sortDir := if queryGet r "sort_dir" = "" then "desc" else queryGet r "sort_dir"
  pure { page := page, pageSize := pageSize, sortBy := sortBy,
         sortDir := sortDir, startDate := startDate, endDate := endDate }

/-- Modelled from the spec: `validTimestamps q strict` — when both bounds
are supplied they must satisfy start ≤ end; the flag selects a stricter
variant (modelled minimally as: the strict variant additionally refuses a
range with only one bound).  The handler file only ever passes
`strict = false`, so the strict branch decides no claim. -/
def validTimestamps (q : Query) (strict : Bool) : Bool :=
  match q.startDate, q.endDate with
  | some s, some e => decide (s ≤ e)
  | none, none => true
  | _, _ => !strict

/-- Modelled from the spec: the `ErrorBody` response shape
`{message, status}`. -/
structure ErrorBody where
  message : String
  status : Nat
deriving Repr, DecidableEq

/-- Modelled from the spec: `getErrorBody` builds the error body at the
point of failure. -/
def getErrorBody (message : String) (status : Nat) : ErrorBody :=
  { message := message, status := status }

/-- The bodies the handlers write, kept structural (serialization is an
external collaborator).  `payloadsData` is the `{count, duration, data}`
envelope of the all-payloads endpoint (duration: elapsed seconds, an
opaque clock-supplied value); `payloadRetrieveById` is the
`{data, durations}` envelope of the by-correlation-id endpoint;
`archiveLink` carries the pass-through JSON value of the archive-link
proxy. -/
inductive ResponseBody where
  | error (e : ErrorBody)
  | payloadsData (count : Int) (duration : Nat) (data : List PayloadRecord)
  | payloadRetrieveById (data : List PayloadRecord) (durations : List (String × String))
  | archiveLink (j : Json)
deriving Repr

/-- What `writeResponse` emits: the HTTP status and the body. -/
structure HttpResponse where
  status : Nat
  body : ResponseBody
deriving Repr

/-- One call into the storage collaborator, recorded in the handler's
trace with the exact arguments passed. -/
inductive DbCall where
  | retrievePayloads (page pageSize : Int) (q : Query)
  | retrieveRequestIdPayloads (requestId sortBy sortDir verbosity : String)
deriving Repr, DecidableEq

/-- The package-level mutable state of the handler file: the shared
`verbosity` variable (initially `"0"`). -/
structure PkgState where
  verbosity : String
deriving Repr, DecidableEq

/-- The external collaborators of the all-payloads handler: the storage
capability `RetrievePayloads` and the clock (elapsed seconds of the
query, an opaque value as far as the core is concerned). -/
structure PayloadsEnv where
  retrievePayloads : Int → Int → Query → Int × List PayloadRecord
  elapsedSeconds : Nat

/-- The sort-by adjustment at the top of `Payloads`: the all-payloads
endpoint has a different default, `created_at`, applied when the caller
supplied no `sort_by`. -/
def adjustSortBy (r : Request) (q : Query) : Query :=
  if queryGet r "sort_by" == "" then { q with sortBy := "created_at" } else q

/-- The `/payloads` handler (`Payloads` in the handler file): normalize
parameters, validate sort-by against `validAllSortBy`, sort direction,
then timestamps (non-strict), short-circuiting with a 400 error body on
the first failure; on success call the storage collaborator once and
assemble the `{count, duration, data}` envelope. -/
def Payloads (env : PayloadsEnv) (r : Request) (st : PkgState) :
    HttpResponse × PkgState × List DbCall :=
  match initQuery r with
  | .error e =>
    ({ status := 400, body := .error (getErrorBody e 400) }, st, [])
  | .ok q0 =>
    let q := adjustSortBy r q0
    if !stringInSlice q.sortBy validAllSortBy then
      ({ status := 400,
         body := .error (getErrorBody
           ("sort_by must be one of " ++ stringsJoin validAllSortBy ", ") 400) }, st, [])
    else if !stringInSlice q.sortDir validSortDir then
      ({ status := 400,
         body := .error (getErrorBody
           ("sort_dir must be one of " ++ stringsJoin validSortDir ", ") 400) }, st, [])
    else if !validTimestamps q false then
      ({ status := 400,
         body := .error (getErrorBody "invalid timestamp format provided" 400) }, st, [])
    else
      let res := env.retrievePayloads q.page q.pageSize q
      ({ status := 200, body := .payloadsData res.1 env.elapsedSeconds res.2 }, st,
        [DbCall.retrievePayloads q.page q.pageSize q])

/-- The external collaborators of the by-correlation-id handler: the
storage capability `RetrieveRequestIdPayloads` and the duration
computation `CalculateDurations` (both external per the spec). -/
structure RequestIdEnv where
  retrieveRequestIdPayloads : String → String → String → String → List PayloadRecord
  calculateDurations : List PayloadRecord → List (String × String)

/-- The `/payloads/{request_id}` handler (`RequestIdPayloads` in the
handler file): store the request's `verbosity` query parameter into the
package-level variable, normalize parameters, validate sort-by against
`validIDSortBy` and sort direction (no timestamp-range check), call the
storage collaborator with the shared verbosity value, answer 404 when no
records match, otherwise assemble the `{data, durations}` envelope. -/
def RequestIdPayloads (env : RequestIdEnv) (r : Request) (st : PkgState) :
    HttpResponse × PkgState × List DbCall :=
  let reqID := r.requestIdParam
  let st1 : PkgState := { st with verbosity := queryGet r "verbosity" }
  match initQuery r with
  | .error e =>
    ({ status := 400, body := .error (getErrorBody e 400) }, st1, [])
  | .ok q =>
    if !stringInSlice q.sortBy validIDSortBy then
      ({ status := 400,
         body := .error (getErrorBody
           ("sort_by must be one of " ++ stringsJoin validIDSortBy ", ") 400) }, st1, [])
    else if !stringInSlice q.sortDir validSortDir then
      ({ status := 400,
         body := .error (getErrorBody
           ("sort_dir must be one of " ++ stringsJoin validSortDir ", ") 400) }, st1, [])
    else
      let payloads := env.retrieveRequestIdPayloads reqID q.sortBy q.sortDir st1.verbosity
      let calls := [DbCall.retrieveRequestIdPayloads reqID q.sortBy q.sortDir st1.verbosity]
      if payloads.isEmpty then
        ({ status := 404,
           body := .error (getErrorBody
             ("payload with id: " ++ reqID ++ " not found") 404) }, st1, calls)
      else
        ({ status := 200,
           body := .payloadRetrieveById payloads (env.calculateDurations payloads) },
          st1, calls)

/-- An outbound request to the storage broker, as built by
`http.NewRequest` plus the header forwarding: method, full URL, and the
forwarded `x-rh-identity` header value. -/
structure BrokerRequest where
  method : String
  url : String
  xRhIdentity : String
deriving Repr, DecidableEq

/-- The outcome of the outbound broker interaction, as far as the
handler can observe it: a construction failure (`http.NewRequest`
errors, before any request exists), a transport failure (`Do` errors), a
body-read failure (`ReadAll` errors), or a response with its HTTP status
and a body that either decodes as JSON to the given value or is not
valid JSON.  Decoding into the archive-link shape is modelled per the
spec, which declares `ArchiveLinkResponse` an opaque pass-through JSON
object with no schema of its own. -/
inductive BrokerResult where
  | constructError
  | dispatchError
  | readError
  | response (status : Nat) (body : Option Json)

/-- Whether the outcome is a request-construction failure (the one
outcome under which no outbound request ever exists). -/
def BrokerResult.isConstructError : BrokerResult → Bool
  | .constructError => true
  | _ => false

/-- The `/payloads/{request_id}/archiveLink` handler
(`PayloadArchiveLink` in the handler file): gate on the
`platform-archive-download` role (the role check itself is the
request's oracle bit, per the spec an external capability with no side
effects); then attempt to build a GET to the storage-broker URL with
`request_id` appended as a query parameter — when `http.NewRequest`
fails, answer 500 `Error with Request ID` with no outbound request at
all; on success forward the inbound `x-rh-identity` header verbatim,
dispatch, read and decode the body, and re-emit the decoded JSON with
status 200; each failure stage maps to its own 500 error body.  The
second component is the trace of outbound broker requests issued. -/
def PayloadArchiveLink (storageBrokerURL : String) (broker : BrokerResult)
    (r : Request) : HttpResponse × List BrokerRequest :=
  let reqID := r.requestIdParam
  if !r.hasArchiveDownloadRole then
    ({ status := 401, body := .error (getErrorBody "Unauthorized" 401) }, [])
  else
    let req : BrokerRequest :=
      { method := "GET", url := storageBrokerURL ++ "?request_id=" ++ reqID,
        xRhIdentity := r.xRhIdentity }
    match broker with
    | .constructError =>
      ({ status := 500, body := .error (getErrorBody "Error with Request ID" 500) }, [])
    | .dispatchError =>
      ({ status := 500,
         body := .error (getErrorBody "Error fetching payload URL from storage-broker" 500) },
        [req])
    | .readError =>
      ({ status := 500,
         body := .error (getErrorBody "Error reading response" 500) }, [req])
    | .response _ none =>
      ({ status := 500,
         body := .error (getErrorBody "Error unmarshaling the response" 500) }, [req])
    | .response _ (some j) =>
      ({ status := 200, body := .archiveLink j }, [req])

/-! ### Reduction helpers for `Except` binds in `initQuery` -/

theorem except_bind_error {ε α β : Type} (e : ε) (f : α → Except ε β) :
    ((Except.error e : Except ε α) >>= f) = Except.error e := rfl

theorem except_bind_ok {ε α β : Type} (a : α) (f : α → Except ε β) :
    ((Except.ok a : Except ε α) >>= f) = f a := rfl

theorem except_map_error {ε α β : Type} (f : α → β) (e : ε) :
    (f <$> (Except.error e : Except ε α)) = Except.error e := rfl

theorem except_map_ok {ε α β : Type} (f : α → β) (a : α) :
    (f <$> (Except.ok a : Except ε α)) = Except.ok (f a) := rfl

/-! ### Helper lemmas about the sort-by adjustment -/

theorem adjustSortBy_page (r : Request) (q : Query) :
    (adjustSortBy r q).page = q.page := by
  unfold adjustSortBy
  split <;> rfl

theorem adjustSortBy_pageSize (r : Request) (q : Query) :
    (adjustSortBy r q).pageSize = q.pageSize := by
  unfold adjustSortBy
  split <;> rfl

theorem adjustSortBy_startDate (r : Request) (q : Query) :
    (adjustSortBy r q).startDate = q.startDate := by
  unfold adjustSortBy
  split <;> rfl

theorem adjustSortBy_endDate (r : Request) (q : Query) :
    (adjustSortBy r q).endDate = q.endDate := by
  unfold adjustSortBy
  split <;> rfl

theorem adjustSortBy_sortDir (r : Request) (q : Query) :
    (adjustSortBy r q).sortDir = q.sortDir := by
  unfold adjustSortBy
  split <;> rfl

/-! ### Concrete sample inputs, used to instantiate the theorems -/

/-- A sample stored payload record, used to instantiate the external
collaborators in concrete evaluations. -/
def sampleRecord : PayloadRecord :=
  { id := "1", requestId := "abc-123", status := "success", date := "100" }

/-- The initial package state: the shared `verbosity` variable starts as
`"0"`. -/
def initialState : PkgState := { verbosity := "0" }

/-- A caller without the `platform-archive-download` role. -/
def reqNoRole : Request :=
  { requestIdParam := "abc-123", queryParams := [], xRhIdentity := "caller-a",
    hasArchiveDownloadRole := false }

/-- A caller holding the `platform-archive-download` role. -/
def reqWithRole : Request :=
  { requestIdParam := "abc-123", queryParams := [], xRhIdentity := "caller-a",
    hasArchiveDownloadRole := true }

/-- A sample decoded broker body. -/
def sampleJson : Json := .obj [("url", .str "https://signed.example/archive")]

/-- The spec's concrete all-payloads scenario:
`GET /payloads?page=2&page_size=10&sort_by=created_at&sort_dir=desc`. -/
def reqAllOk : Request :=
  { requestIdParam := "",
    queryParams := [("page", "2"), ("page_size", "10"),
                    ("sort_by", "created_at"), ("sort_dir", "desc")],
    xRhIdentity := "caller-a", hasArchiveDownloadRole := false }

/-- The descriptor `initQuery` produces for `reqAllOk`. -/
def qAllOk : Query :=
  { page := 2, pageSize := 10, sortBy := "created_at", sortDir := "desc",
    startDate := none, endDate := none }

/-- A storage collaborator reporting totalCount 35 and one record, with
the clock reading 0 elapsed seconds. -/
def env35 : PayloadsEnv :=
  { retrievePayloads := fun _ _ _ => (35, [sampleRecord]), elapsedSeconds := 0 }

/-- A storage collaborator with no matching records for any correlation
id. -/
def envIdEmpty : RequestIdEnv :=
  { retrieveRequestIdPayloads := fun _ _ _ _ => [],
    calculateDurations := fun _ => [] }

/-- A storage collaborator holding one record for every correlation
id. -/
def envIdOne : RequestIdEnv :=
  { retrieveRequestIdPayloads := fun _ _ _ _ => [sampleRecord],
    calculateDurations := fun _ => [("service:success", "0")] }

/-- A by-correlation-id request supplying `startDate 5 > endDate 3`. -/
def reqBadDates : Request :=
  { requestIdParam := "abc-123",
    queryParams := [("start_date", "5"), ("end_date", "3")],
    xRhIdentity := "caller-a", hasArchiveDownloadRole := false }

/-- The descriptor `initQuery` produces for `reqBadDates`. -/
def qBadDates : Query :=
  { page := 1, pageSize := 10, sortBy := "date", sortDir := "desc",
    startDate := some 5, endDate := some 3 }

/-- An all-payloads request supplying `startDate 5 > endDate 3`. -/
def reqAllBadDates : Request :=
  { requestIdParam := "",
    queryParams := [("start_date", "5"), ("end_date", "3")],
    xRhIdentity := "caller-a", hasArchiveDownloadRole := false }

/-- An all-payloads request supplying `startDate = endDate = 4`. -/
def reqAllEqDates : Request :=
  { requestIdParam := "",
    queryParams := [("start_date", "4"), ("end_date", "4")],
    xRhIdentity := "caller-a", hasArchiveDownloadRole := false }

/-- The descriptor `initQuery` produces for `reqAllBadDates`. -/
def qAllBadDates : Query :=
  { page := 1, pageSize := 10, sortBy := "date", sortDir := "desc",
    startDate := some 5, endDate := some 3 }

/-- The descriptor `initQuery` produces for `reqAllEqDates`. -/
def qAllEqDates : Query :=
  { page := 1, pageSize := 10, sortBy := "date", sortDir := "desc",
    startDate := some 4, endDate := some 4 }

/-- A request with an unknown sort-by field, as in the spec's
`GET /payloads?sort_by=bogus_field` scenario. -/
def reqBogus : Request :=
  { requestIdParam := "abc-123", queryParams := [("sort_by", "bogus_field")],
    xRhIdentity := "caller-a", hasArchiveDownloadRole := false }

/-- The descriptor `initQuery` produces for `reqBogus`. -/
def qBogus : Query :=
  { page := 1, pageSize := 10, sortBy := "bogus_field", sortDir := "desc",
    startDate := none, endDate := none }

/-- A request with a valid sort-by but an invalid sort direction. -/
def reqBadDir : Request :=
  { requestIdParam := "abc-123",
    queryParams := [("sort_by", "created_at"), ("sort_dir", "up")],
    xRhIdentity := "caller-a", hasArchiveDownloadRole := false }

/-- The descriptor `initQuery` produces for `reqBadDir`. -/
def qBadDir : Query :=
  { page := 1, pageSize := 10, sortBy := "created_at", sortDir := "up",
    startDate := none, endDate := none }

/-- A by-correlation-id request with `verbosity=2`. -/
def reqVerbose : Request :=
  { requestIdParam := "abc-123", queryParams := [("verbosity", "2")],
    xRhIdentity := "caller-a", hasArchiveDownloadRole := false }

/-- A plain by-correlation-id request for id `xyz-9`, no parameters. -/
def reqIdPlain : Request :=
  { requestIdParam := "xyz-9", queryParams := [],
    xRhIdentity := "caller-a", hasArchiveDownloadRole := false }

/-- The descriptor `initQuery` produces for `reqIdPlain` (all
defaults). -/
def qDefaults : Query :=
  { page := 1, pageSize := 10, sortBy := "date", sortDir := "desc",
    startDate := none, endDate := none }

/-! ### Claims about the archive-link proxy -/

/-- C1: an archive-link request whose caller does not hold the role
`platform-archive-download` is answered 401 with the generic body
`Unauthorized` (revealing neither the required role nor the reason), and
the outbound request to the storage broker is never built or issued —
the broker trace is empty whatever the broker would have answered. -/
theorem archive_link_unauthorized (url : String) (broker : BrokerResult) (r : Request)
    (h : r.hasArchiveDownloadRole = false) :
    PayloadArchiveLink url broker r =
      ({ status := 401, body := .error { message := "Unauthorized", status := 401 } }, []) := by
  simp [PayloadArchiveLink, h, getErrorBody]

/-- Concrete instance of `archive_link_unauthorized`: a role-less caller
gets 401/`Unauthorized` and no broker call, even though the broker would
have served a valid JSON body. -/
theorem archive_link_unauthorized_witness :
    reqNoRole.hasArchiveDownloadRole = false ∧
    PayloadArchiveLink "http://storage-broker" (.response 200 (some sampleJson)) reqNoRole =
      ({ status := 401, body := .error { message := "Unauthorized", status := 401 } }, []) :=
  ⟨rfl, archive_link_unauthorized "http://storage-broker" (.response 200 (some sampleJson))
    reqNoRole rfl⟩

/-- C2: for an authorized caller, whenever the downstream body decodes as
valid JSON the handler answers 200 and the body it re-emits denotes
exactly the JSON value decoded from the downstream body — the opaque
pass-through object is forwarded unmodified in shape, for every valid
JSON value. -/
theorem archive_link_passthrough (url : String) (r : Request) (status : Nat) (j : Json)
    (h : r.hasArchiveDownloadRole = true) :
    (PayloadArchiveLink url (.response status (some j)) r).1 =
      { status := 200, body := .archiveLink j } := by
  simp [PayloadArchiveLink, h]

/-- Concrete instance of `archive_link_passthrough`: an authorized caller
receives 200 carrying the very JSON value the broker body decoded to. -/
theorem archive_link_passthrough_witness :
    reqWithRole.hasArchiveDownloadRole = true ∧
    (PayloadArchiveLink "http://storage-broker" (.response 200 (some sampleJson)) reqWithRole).1 =
      { status := 200, body := .archiveLink sampleJson } :=
  ⟨rfl, archive_link_passthrough "http://storage-broker" reqWithRole 200 sampleJson rfl⟩

/-- C7: for every authorized archive-link request on which request
construction succeeds (when `http.NewRequest` fails, the handler answers
500 and issues nothing), the single outbound request issued is a GET to
the storage-broker base URL with `request_id` appended as the query
parameter, and it carries the inbound `x-rh-identity` header value
verbatim — for every request id and every identity value, whatever the
downstream outcome. -/
theorem archive_link_outbound_request (url : String) (broker : BrokerResult) (r : Request)
    (h : r.hasArchiveDownloadRole = true)
    (hc : broker.isConstructError = false) :
    (PayloadArchiveLink url broker r).2 =
      [{ method := "GET", url := url ++ "?request_id=" ++ r.requestIdParam,
         xRhIdentity := r.xRhIdentity }] := by
  cases broker with
  | constructError => simp [BrokerResult.isConstructError] at hc
  | dispatchError => simp [PayloadArchiveLink, h]
  | readError => simp [PayloadArchiveLink, h]
  | response s b => cases b <;> simp [PayloadArchiveLink, h]

/-- Concrete instance of `archive_link_outbound_request`: the outbound
GET for request id `abc-123` with the caller's identity header, under an
outcome on which construction succeeded. -/
theorem archive_link_outbound_request_witness :
    reqWithRole.hasArchiveDownloadRole = true ∧
    BrokerResult.dispatchError.isConstructError = false ∧
    (PayloadArchiveLink "http://storage-broker" .dispatchError reqWithRole).2 =
      [{ method := "GET", url := "http://storage-broker" ++ "?request_id=" ++ "abc-123",
         xRhIdentity := "caller-a" }] :=
  ⟨rfl, rfl,
   archive_link_outbound_request "http://storage-broker" .dispatchError reqWithRole rfl rfl⟩

/-- C9: the handler never inspects the downstream HTTP status code: for
an authorized caller the response is the same function of the downstream
body for every downstream status, and in particular a body that decodes
into the expected shape yields 200 with the re-encoded body even when
the storage broker answered an error status such as 404 or 500. -/
theorem archive_link_ignores_downstream_status (url : String) (r : Request)
    (h : r.hasArchiveDownloadRole = true) :
    (∀ s1 s2 : Nat, ∀ b : Option Json,
        PayloadArchiveLink url (.response s1 b) r =
          PayloadArchiveLink url (.response s2 b) r) ∧
    (∀ s : Nat, ∀ j : Json,
        (PayloadArchiveLink url (.response s (some j)) r).1 =
          { status := 200, body := .archiveLink j }) := by
  constructor
  · intro s1 s2 b
    cases b <;> simp [PayloadArchiveLink, h]
  · intro s j
    simp [PayloadArchiveLink, h]

/-- Concrete instance of `archive_link_ignores_downstream_status`: the
broker answers status 500 with a decodable body, and the handler still
emits 200 with the pass-through value. -/
theorem archive_link_ignores_downstream_status_witness :
    (PayloadArchiveLink "http://storage-broker" (.response 500 (some sampleJson)) reqWithRole).1 =
      { status := 200, body := .archiveLink sampleJson } :=
  (archive_link_ignores_downstream_status "http://storage-broker" reqWithRole rfl).2 500 sampleJson

/-! ### Claims about the payload endpoints -/

/-- C8: for every `/payloads` request with page ≥ 1 and page size ≥ 1
(which pass the normalizer) that passes validation, the storage
collaborator `RetrievePayloads` is invoked exactly once, with exactly the
descriptor's page and page-size values, and the 200 response body is the
`{count, duration, data}` envelope built from the collaborator's
result. -/
theorem payloads_success_calls_retrieve (env : PayloadsEnv) (r : Request) (st : PkgState)
    (q : Query)
    (hq : initQuery r = .ok q)
    (_hpage : 1 ≤ (adjustSortBy r q).page)
    (_hsize : 1 ≤ (adjustSortBy r q).pageSize)
    (hsb : stringInSlice (adjustSortBy r q).sortBy validAllSortBy = true)
    (hsd : stringInSlice (adjustSortBy r q).sortDir validSortDir = true)
    (hts : validTimestamps (adjustSortBy r q) false = true) :
    Payloads env r st =
      ({ status := 200,
         body := .payloadsData
           (env.retrievePayloads (adjustSortBy r q).page (adjustSortBy r q).pageSize
             (adjustSortBy r q)).1
           env.elapsedSeconds
           (env.retrievePayloads (adjustSortBy r q).page (adjustSortBy r q).pageSize
             (adjustSortBy r q)).2 },
        st,
        [DbCall.retrievePayloads (adjustSortBy r q).page (adjustSortBy r q).pageSize
          (adjustSortBy r q)]) := by
  simp [Payloads, hq, hsb, hsd, hts]

/-- Concrete instance of `payloads_success_calls_retrieve`: the spec's
scenario `page=2&page_size=10&sort_by=created_at&sort_dir=desc` with a
collaborator reporting count 35 — the collaborator is called once with
page 2 and page size 10, and the response is
`{count: 35, duration: 0, data: [record]}` with status 200. -/
theorem payloads_success_calls_retrieve_witness :
    Payloads env35 reqAllOk initialState =
      ({ status := 200, body := .payloadsData 35 0 [sampleRecord] }, initialState,
        [DbCall.retrievePayloads 2 10 qAllOk]) := by
  exact payloads_success_calls_retrieve env35 reqAllOk initialState qAllOk rfl
    (by decide) (by decide) rfl rfl rfl

/-- C5: validation runs in a fixed order — sort-by whitelist first, then
sort direction, then timestamps — short-circuiting on the first failure,
so exactly the first detected error body is reported; a sort direction
outside `{asc, desc}` yields 400; and on any validation failure (status
400) the storage collaborator is never invoked, on either endpoint. -/
theorem validation_order_short_circuit (env : PayloadsEnv) (envId : RequestIdEnv)
    (r : Request) (st : PkgState) :
    (∀ q, initQuery r = .ok q →
       stringInSlice (adjustSortBy r q).sortBy validAllSortBy = false →
       Payloads env r st =
         ({ status := 400,
            body := .error (getErrorBody
              ("sort_by must be one of " ++ stringsJoin validAllSortBy ", ") 400) },
           st, [])) ∧
    (∀ q, initQuery r = .ok q →
       stringInSlice (adjustSortBy r q).sortBy validAllSortBy = true →
       stringInSlice (adjustSortBy r q).sortDir validSortDir = false →
       Payloads env r st =
         ({ status := 400,
            body := .error (getErrorBody
              ("sort_dir must be one of " ++ stringsJoin validSortDir ", ") 400) },
           st, [])) ∧
    (∀ q, initQuery r = .ok q →
       stringInSlice (adjustSortBy r q).sortBy validAllSortBy = true →
       stringInSlice (adjustSortBy r q).sortDir validSortDir = true →
       validTimestamps (adjustSortBy r q) false = false →
       Payloads env r st =
         ({ status := 400,
            body := .error (getErrorBody "invalid timestamp format provided" 400) },
           st, [])) ∧
    ((Payloads env r st).1.status = 400 → (Payloads env r st).2.2 = []) ∧
    ((RequestIdPayloads envId r st).1.status = 400 →
      (RequestIdPayloads envId r st).2.2 = []) := by
  refine ⟨?_, ?_, ?_, ?_, ?_⟩
  · intro q hq h1
    simp [Payloads, hq, h1, getErrorBody]
  · intro q hq h1 h2
    simp [Payloads, hq, h1, h2, getErrorBody]
  · intro q hq h1 h2 h3
    simp [Payloads, hq, h1, h2, h3, getErrorBody]
  · cases hI : initQuery r with
    | error e => simp [Payloads, hI]
    | ok q =>
      cases h1 : stringInSlice (adjustSortBy r q).sortBy validAllSortBy with
      | false => simp [Payloads, hI, h1]
      | true =>
        cases h2 : stringInSlice (adjustSortBy r q).sortDir validSortDir with
        | false => simp [Payloads, hI, h1, h2]
        | true =>
          cases h3 : validTimestamps (adjustSortBy r q) false with
          | false => simp [Payloads, hI, h1, h2, h3]
          | true => simp [Payloads, hI, h1, h2, h3]
  · cases hI : initQuery r with
    | error e => simp [RequestIdPayloads, hI]
    | ok q =>
      cases h1 : stringInSlice q.sortBy validIDSortBy with
      | false => simp [RequestIdPayloads, hI, h1]
      | true =>
        cases h2 : stringInSlice q.sortDir validSortDir with
        | false => simp [RequestIdPayloads, hI, h1, h2]
        | true =>
          cases h3 : envId.retrieveRequestIdPayloads r.requestIdParam q.sortBy q.sortDir
              (queryGet r "verbosity") with
          | nil => simp [RequestIdPayloads, hI, h1, h2, h3]
          | cons a as => simp [RequestIdPayloads, hI, h1, h2, h3]

/-- Concrete instance of `validation_order_short_circuit`: a request with
valid sort-by but sort direction `up` gets exactly the sort-dir 400 error
with no collaborator call, and a 400 response on either endpoint comes
with an empty collaborator trace. -/
theorem validation_order_short_circuit_witness :
    Payloads env35 reqBadDir initialState =
      ({ status := 400,
         body := .error (getErrorBody
           ("sort_dir must be one of " ++ stringsJoin validSortDir ", ") 400) },
        initialState, []) ∧
    (Payloads env35 reqBogus initialState).2.2 = [] :=
  ⟨(validation_order_short_circuit env35 envIdEmpty reqBadDir initialState).2.1
      qBadDir rfl rfl rfl,
   (validation_order_short_circuit env35 envIdEmpty reqBogus initialState).2.2.2.1 rfl⟩

/-- C4: a request whose sort-by is not in the whitelist applicable to the
endpoint being served is answered 400 with a message enumerating every
member of that endpoint's whitelist, comma-separated, in the whitelist's
fixed order; the two endpoints use distinct whitelists. -/
theorem sortby_whitelist_messages (env : PayloadsEnv) (envId : RequestIdEnv)
    (r : Request) (st : PkgState) :
    (∀ q, initQuery r = .ok q →
       stringInSlice (adjustSortBy r q).sortBy validAllSortBy = false →
       Payloads env r st =
         ({ status := 400,
            body := .error (getErrorBody
              "sort_by must be one of created_at, updated_at" 400) }, st, [])) ∧
    (∀ q, initQuery r = .ok q →
       stringInSlice q.sortBy validIDSortBy = false →
       RequestIdPayloads envId r st =
         ({ status := 400,
            body := .error (getErrorBody
              "sort_by must be one of date, created_at" 400) },
           { verbosity := queryGet r "verbosity" }, [])) ∧
    "sort_by must be one of created_at, updated_at" =
      "sort_by must be one of " ++ stringsJoin validAllSortBy ", " ∧
    "sort_by must be one of date, created_at" =
      "sort_by must be one of " ++ stringsJoin validIDSortBy ", " ∧
    validAllSortBy ≠ validIDSortBy := by
  refine ⟨?_, ?_, rfl, rfl, by decide⟩
  · intro q hq h1
    have hmsg : ("sort_by must be one of " ++ stringsJoin validAllSortBy ", ") =
        "sort_by must be one of created_at, updated_at" := rfl
    simp [Payloads, hq, h1, getErrorBody, hmsg]
  · intro q hq h1
    have hmsg : ("sort_by must be one of " ++ stringsJoin validIDSortBy ", ") =
        "sort_by must be one of date, created_at" := rfl
    simp [RequestIdPayloads, hq, h1, getErrorBody, hmsg]

/-- Concrete instance of `sortby_whitelist_messages`: the spec's
`sort_by=bogus_field` scenario on each endpoint, each answered 400 with
its own full comma-joined whitelist. -/
theorem sortby_whitelist_messages_witness :
    Payloads env35 reqBogus initialState =
      ({ status := 400,
         body := .error (getErrorBody
           "sort_by must be one of created_at, updated_at" 400) },
        initialState, []) ∧
    RequestIdPayloads envIdOne reqBogus initialState =
      ({ status := 400,
         body := .error (getErrorBody
           "sort_by must be one of date, created_at" 400) },
        { verbosity := "" }, []) :=
  ⟨(sortby_whitelist_messages env35 envIdOne reqBogus initialState).1 qBogus rfl rfl,
   (sortby_whitelist_messages env35 envIdOne reqBogus initialState).2.1 qBogus rfl rfl⟩

/-- C6: a `/payloads/{request_id}` request that passes validation and for
which the storage collaborator returns zero matching records is answered
404, with an error body whose message contains the correlation id. -/
theorem request_id_not_found (envId : RequestIdEnv) (r : Request) (st : PkgState) (q : Query)
    (hq : initQuery r = .ok q)
    (h1 : stringInSlice q.sortBy validIDSortBy = true)
    (h2 : stringInSlice q.sortDir validSortDir = true)
    (h3 : envId.retrieveRequestIdPayloads r.requestIdParam q.sortBy q.sortDir
        (queryGet r "verbosity") = []) :
    (RequestIdPayloads envId r st).1 =
      { status := 404,
        body := .error (getErrorBody
          ("payload with id: " ++ r.requestIdParam ++ " not found") 404) } ∧
    ∃ pre post,
      "payload with id: " ++ r.requestIdParam ++ " not found" =
        pre ++ r.requestIdParam ++ post := by
  refine ⟨?_, ⟨"payload with id: ", " not found", rfl⟩⟩
  simp [RequestIdPayloads, hq, h1, h2, h3]

/-- Concrete instance of `request_id_not_found`: correlation id `xyz-9`
with an empty storage collaborator yields 404 and a message containing
`xyz-9`. -/
theorem request_id_not_found_witness :
    (RequestIdPayloads envIdEmpty reqIdPlain initialState).1 =
      { status := 404,
        body := .error (getErrorBody
          ("payload with id: " ++ "xyz-9" ++ " not found") 404) } ∧
    ∃ pre post,
      "payload with id: " ++ "xyz-9" ++ " not found" = pre ++ "xyz-9" ++ post := by
  exact request_id_not_found envIdEmpty reqIdPlain initialState qDefaults rfl rfl rfl rfl

/-- C3 as stated is refuted: on the by-correlation-id endpoint a request
supplying startDate 5 and endDate 3 — both parsing under the recognized
format, with startDate > endDate — is not answered 400: the handler runs
no timestamp-range check at all; with zero matching records it answers
404. -/
theorem request_id_timestamps_counterexample :
    initQuery reqBadDates = .ok qBadDates ∧
    qBadDates.startDate = some 5 ∧ qBadDates.endDate = some 3 ∧
    (RequestIdPayloads envIdEmpty reqBadDates initialState).1.status = 404 :=
  ⟨rfl, rfl, rfl, rfl⟩

/-- C3 amended: a supplied date that does not parse under the recognized
format fails parameter normalization (so either endpoint answers 400);
the all-payloads endpoint applies the non-strict range check —
startDate > endDate yields 400 and startDate = endDate passes — while the
by-correlation-id endpoint applies no startDate ≤ endDate check: after
its two sort validations it can only answer 404 or 200, never a
timestamp 400. -/
theorem timestamp_validation_amended (env : PayloadsEnv) (envId : RequestIdEnv)
    (r : Request) (st : PkgState) :
    (∀ q s e, initQuery r = .ok q →
       stringInSlice (adjustSortBy r q).sortBy validAllSortBy = true →
       stringInSlice (adjustSortBy r q).sortDir validSortDir = true →
       q.startDate = some s → q.endDate = some e → e < s →
       Payloads env r st =
         ({ status := 400,
            body := .error (getErrorBody "invalid timestamp format provided" 400) },
           st, [])) ∧
    (∀ q s, initQuery r = .ok q →
       stringInSlice (adjustSortBy r q).sortBy validAllSortBy = true →
       stringInSlice (adjustSortBy r q).sortDir validSortDir = true →
       q.startDate = some s → q.endDate = some s →
       (Payloads env r st).1.status = 200) ∧
    (∀ q, initQuery r = .ok q →
       stringInSlice q.sortBy validIDSortBy = true →
       stringInSlice q.sortDir validSortDir = true →
       (RequestIdPayloads envId r st).1.status = 404 ∨
         (RequestIdPayloads envId r st).1.status = 200) ∧
    (∀ e, initQuery r = .error e →
       (Payloads env r st).1.status = 400 ∧
         (RequestIdPayloads envId r st).1.status = 400) ∧
    (∀ k, (k = "start_date" ∨ k = "end_date") → queryGet r k ≠ "" →
       parseTimestamp (queryGet r k) = none →
       ∃ e, initQuery r = .error e) := by
  refine ⟨?_, ?_, ?_, ?_, ?_⟩
  · intro q s e hq h1 h2 hs he hlt
    have hts : validTimestamps (adjustSortBy r q) false = false := by
      simp [validTimestamps, adjustSortBy_startDate, adjustSortBy_endDate, hs, he]
      omega
    simp [Payloads, hq, h1, h2, hts]
  · intro q s hq h1 h2 hs he
    have hts : validTimestamps (adjustSortBy r q) false = true := by
      simp [validTimestamps, adjustSortBy_startDate, adjustSortBy_endDate, hs, he]
    simp [Payloads, hq, h1, h2, hts]
  · intro q hq h1 h2
    cases h3 : envId.retrieveRequestIdPayloads r.requestIdParam q.sortBy q.sortDir
        (queryGet r "verbosity") with
    | nil =>
      left
      simp [RequestIdPayloads, hq, h1, h2, h3]
    | cons a as =>
      right
      simp [RequestIdPayloads, hq, h1, h2, h3]
  · intro e he
    constructor
    · simp [Payloads, he]
    · simp [RequestIdPayloads, he]
  · intro k hk hne hpar
    have hts : getTimestampParam r k = .error ("malformed parameter: " ++ k) := by
      simp [getTimestampParam, hne, hpar]
    rcases hk with rfl | rfl
    · cases hp : getPosIntParam r "page" 1 with
      | error e =>
        exact ⟨e, by simp [initQuery, hp, except_bind_error]⟩
      | ok a =>
        cases hps : getPosIntParam r "page_size" 10 with
        | error e =>
          exact ⟨e, by simp [initQuery, hp, hps, except_bind_error, except_bind_ok]⟩
        | ok b =>
          exact ⟨"malformed parameter: " ++ "start_date",
            by simp [initQuery, hp, hps, hts, except_bind_error, except_bind_ok]⟩
    · cases hp : getPosIntParam r "page" 1 with
      | error e =>
        exact ⟨e, by simp [initQuery, hp, except_bind_error]⟩
      | ok a =>
        cases hps : getPosIntParam r "page_size" 10 with
        | error e =>
          exact ⟨e, by simp [initQuery, hp, hps, except_bind_error, except_bind_ok]⟩
        | ok b =>
          cases hsd : getTimestampParam r "start_date" with
          | error e =>
            exact ⟨e, by simp [initQuery, hp, hps, hsd, except_bind_error, except_bind_ok]⟩
          | ok c =>
            exact ⟨"malformed parameter: " ++ "end_date",
              by simp [initQuery, hp, hps, hsd, hts, except_bind_error, except_bind_ok,
                except_map_error]⟩

/-- Concrete instances of `timestamp_validation_amended`: the all-payloads
endpoint rejects startDate 5 > endDate 3 with the timestamp 400 and
accepts startDate = endDate = 4 with 200, while the by-correlation-id
endpoint, given the same reversed dates, answers 404 — not 400. -/
theorem timestamp_validation_amended_witness :
    Payloads env35 reqAllBadDates initialState =
      ({ status := 400,
         body := .error (getErrorBody "invalid timestamp format provided" 400) },
        initialState, []) ∧
    (Payloads env35 reqAllEqDates initialState).1.status = 200 ∧
    ((RequestIdPayloads envIdEmpty reqBadDates initialState).1.status = 404 ∨
      (RequestIdPayloads envIdEmpty reqBadDates initialState).1.status = 200) :=
  ⟨(timestamp_validation_amended env35 envIdEmpty reqAllBadDates initialState).1
      qAllBadDates 5 3 rfl rfl rfl rfl rfl (by decide),
   (timestamp_validation_amended env35 envIdEmpty reqAllEqDates initialState).2.1
      qAllEqDates 4 rfl rfl rfl rfl rfl,
   (timestamp_validation_amended env35 envIdEmpty reqBadDates initialState).2.2.1
      qBadDates rfl rfl rfl⟩

/-- C10: the verbosity flag is package-level shared state: handling a
by-correlation-id request overwrites it with that request's `verbosity`
query parameter (whatever state it was in, even when validation fails),
the value passed to the storage collaborator is exactly that parameter,
and handling an all-payloads request leaves the variable unchanged. -/
theorem verbosity_shared_state (env : PayloadsEnv) (envId : RequestIdEnv)
    (r : Request) (st : PkgState) :
    ((RequestIdPayloads envId r st).2.1).verbosity = queryGet r "verbosity" ∧
    (∀ id sb sd v,
       DbCall.retrieveRequestIdPayloads id sb sd v ∈ (RequestIdPayloads envId r st).2.2 →
       v = queryGet r "verbosity") ∧
    (Payloads env r st).2.1 = st := by
  refine ⟨?_, ?_, ?_⟩
  · cases hI : initQuery r with
    | error e => simp [RequestIdPayloads, hI]
    | ok q =>
      cases h1 : stringInSlice q.sortBy validIDSortBy with
      | false => simp [RequestIdPayloads, hI, h1]
      | true =>
        cases h2 : stringInSlice q.sortDir validSortDir with
        | false => simp [RequestIdPayloads, hI, h1, h2]
        | true =>
          cases h3 : envId.retrieveRequestIdPayloads r.requestIdParam q.sortBy q.sortDir
              (queryGet r "verbosity") with
          | nil => simp [RequestIdPayloads, hI, h1, h2, h3]
          | cons a as => simp [RequestIdPayloads, hI, h1, h2, h3]
  · intro id sb sd v hv
    cases hI : initQuery r with
    | error e => simp [RequestIdPayloads, hI] at hv
    | ok q =>
      cases h1 : stringInSlice q.sortBy validIDSortBy with
      | false => simp [RequestIdPayloads, hI, h1] at hv
      | true =>
        cases h2 : stringInSlice q.sortDir validSortDir with
        | false => simp [RequestIdPayloads, hI, h1, h2] at hv
        | true =>
          cases h3 : envId.retrieveRequestIdPayloads r.requestIdParam q.sortBy q.sortDir
              (queryGet r "verbosity") with
          | nil =>
            simp [RequestIdPayloads, hI, h1, h2, h3] at hv
            exact hv.2.2.2
          | cons a as =>
            simp [RequestIdPayloads, hI, h1, h2, h3] at hv
            exact hv.2.2.2
  · cases hI : initQuery r with
    | error e => simp [Payloads, hI]
    | ok q =>
      cases h1 : stringInSlice (adjustSortBy r q).sortBy validAllSortBy with
      | false => simp [Payloads, hI, h1]
      | true =>
        cases h2 : stringInSlice (adjustSortBy r q).sortDir validSortDir with
        | false => simp [Payloads, hI, h1, h2]
        | true =>
          cases h3 : validTimestamps (adjustSortBy r q) false with
          | false => simp [Payloads, hI, h1, h2, h3]
          | true => simp [Payloads, hI, h1, h2, h3]

/-- Concrete instance of `verbosity_shared_state`: a by-correlation-id
request with `verbosity=2` leaves the shared variable holding `2` and
passes `2` to the collaborator, while an all-payloads request leaves the
initial state untouched. -/
theorem verbosity_shared_state_witness :
    ((RequestIdPayloads envIdOne reqVerbose initialState).2.1).verbosity =
      queryGet reqVerbose "verbosity" ∧
    "2" = queryGet reqVerbose "verbosity" ∧
    (Payloads env35 reqAllOk initialState).2.1 = initialState :=
  ⟨(verbosity_shared_state env35 envIdOne reqVerbose initialState).1,
   (verbosity_shared_state env35 envIdOne reqVerbose initialState).2.1
      "abc-123" "date" "desc" "2" (by decide),
   (verbosity_shared_state env35 envIdOne reqAllOk initialState).2.2⟩

end PayloadTracker
